import Mathlib

/-!
# Verification of the lexical-playground customization layer

Shallow embedding of the three source files of the repository fragment
(`App.tsx`, `nodes/ImageNode.tsx`, `nodes/ImageComponent.tsx`) together with
proofs about the claims of the specification.

JavaScript strings are `String`, numbers appearing as widths/heights are `Int`
(they come from integer DOM properties), the one real-arithmetic computation
(`calculateDimensions` in `ImageComponent.tsx`) is carried out over `ℚ` with
`Math.round` modelled as `⌊q + 1/2⌋`.  Optional (`?:`) fields are `Option`.
-/

/-- A width or height that is either the CSS keyword `'inherit'` or a number
(the TS type `'inherit' | number`). -/
inductive Dim where
  | inherit : Dim
  | num : Int → Dim
deriving DecidableEq, Repr

/-- `d.toString()` on a `'inherit' | number` value: a number renders in
decimal, the string renders as itself. -/
def Dim.toStr : Dim → String
  | .inherit => "inherit"
  | .num n => toString n

/-- JavaScript truthiness of a `'inherit' | number` value, as used by
`width || 'inherit'` in the `ImageNode` constructor: the string `'inherit'`
is truthy, a number is truthy iff it is nonzero. -/
def Dim.truthy : Dim → Bool
  | .inherit => true
  | .num n => n != 0

/-- `width || 'inherit'` applied to the optional constructor argument
`width?: 'inherit' | number`: `undefined`, and the falsy number `0`, fall back
to `'inherit'`. -/
def dimOrInherit : Option Dim → Dim
  | none => .inherit
  | some d => if d.truthy then d else .inherit

/-- The nested caption editor (`LexicalEditor`), modelled by its editor
state: a list of serialized nodes.  The framework editor itself is out of
scope; only identity of the state and emptiness are ever consulted. -/
structure LexicalEditorM where
  state : List String
deriving DecidableEq, Repr

/-- `editorState.isEmpty()` of the caption editor model. -/
def LexicalEditorM.stateIsEmpty (e : LexicalEditorM) : Bool :=
  e.state.isEmpty

/-- The caption editor built by `createEditor({namespace:
'Playground/ImageNodeCaption', ...})` in the `ImageNode` constructor: a fresh
editor with the empty state. -/
def createCaptionEditor : LexicalEditorM := ⟨[]⟩

/-- The fields of `ImageNode` (`nodes/ImageNode.tsx`).  `__title` and
`__className` are `string | undefined`, hence `Option String`; `__key` is the
base-node key. -/
structure ImageNode where
  src : String
  altText : String
  width : Dim
  height : Dim
  maxWidth : Int
  showCaption : Bool
  imgRounded : Bool
  imgZoomable : Bool
  caption : LexicalEditorM
  captionsEnabled : Bool
  title : Option String
  className : Option String
  key : Option Nat
deriving DecidableEq, Repr

/-- The `ImageNode` constructor.  Mirrors the TS constructor body:
`__width = width || 'inherit'`, `__height = height || 'inherit'`,
`__showCaption = showCaption || false`, `__imgRounded = imgRounded || false`,
`__imgZoomable = imgZoomable || false`, `__caption = caption || createEditor(...)`,
`__captionsEnabled = captionsEnabled || captionsEnabled === undefined`,
`__title = title`, `__className = className`. -/
def ImageNode.new (src altText : String) (maxWidth : Int)
    (width height : Option Dim) (showCaption imgRounded imgZoomable : Option Bool)
    (caption : Option LexicalEditorM) (captionsEnabled : Option Bool)
    (key : Option Nat) (title className : Option String) : ImageNode where
  src := src
  altText := altText
  width := dimOrInherit width
  height := dimOrInherit height
  maxWidth := maxWidth
  showCaption := showCaption.getD false
  imgRounded := imgRounded.getD false
  imgZoomable := imgZoomable.getD false
  caption := caption.getD createCaptionEditor
  captionsEnabled := match captionsEnabled with
    | none => true
    | some b => b
  title := title
  className := className
  key := key

/-- `ImageNode.clone`: re-runs the constructor on every field of the node,
in the argument order of the source. -/
def ImageNode.clone (n : ImageNode) : ImageNode :=
  ImageNode.new n.src n.altText n.maxWidth (some n.width) (some n.height)
    (some n.showCaption) (some n.imgRounded) (some n.imgZoomable)
    (some n.caption) (some n.captionsEnabled) n.key n.title n.className

/-- The argument record of `$createImageNode` (`ImagePayload`): every field
but `src` and `altText` is optional, and `width`/`height` are plain numbers
here (`width?: number`). -/
structure ImagePayload where
  altText : String
  caption : Option LexicalEditorM := none
  height : Option Int := none
  key : Option Nat := none
  maxWidth : Option Int := none
  showCaption : Option Bool := none
  imgRounded : Option Bool := none
  imgZoomable : Option Bool := none
  src : String
  width : Option Int := none
  captionsEnabled : Option Bool := none
  title : Option String := none
  className : Option String := none

/-- `$applyNodeReplacement` (framework).  Modelled from the spec: the
document model and node registration are owned by the underlying editor
framework and out of scope; no node replacement is configured for
`ImageNode`, so the node is returned unchanged. -/
def applyNodeReplacement (n : ImageNode) : ImageNode := n

/-- `$createImageNode({altText, height, maxWidth = 500, captionsEnabled, src,
width, showCaption, imgRounded, imgZoomable, caption, key, title, className})`:
destructures the payload (defaulting `maxWidth` to `500`), calls the
constructor and applies `$applyNodeReplacement`. -/
def createImageNode (p : ImagePayload) : ImageNode :=
  applyNodeReplacement
    (ImageNode.new p.src p.altText (p.maxWidth.getD 500)
      (p.width.map Dim.num) (p.height.map Dim.num)
      p.showCaption p.imgRounded p.imgZoomable
      p.caption p.captionsEnabled p.key p.title p.className)

/-- The serialized form produced by `ImageNode.exportJSON` and consumed by
`ImageNode.importJSON` (`SerializedImageNode`); the base-node part
(`type`, `version`) carries no image data and is omitted. -/
structure SerializedImageNode where
  altText : String
  caption : List String
  height : Option Int
  maxWidth : Int
  showCaption : Bool
  imgRounded : Bool
  imgZoomable : Bool
  src : String
  width : Option Int
  title : String
  className : String
deriving DecidableEq, Repr

/-- `ImageNode.exportJSON`: `'inherit'` widths/heights are written as `0`,
`undefined` title/className as `''`, and the caption editor is serialized. -/
def ImageNode.exportJSON (n : ImageNode) : SerializedImageNode where
  altText := n.altText
  caption := n.caption.state
  height := some (match n.height with | .inherit => 0 | .num v => v)
  maxWidth := n.maxWidth
  showCaption := n.showCaption
  imgRounded := n.imgRounded
  imgZoomable := n.imgZoomable
  src := n.src
  width := some (match n.width with | .inherit => 0 | .num v => v)
  title := n.title.getD ""
  className := n.className.getD ""

/-- `ImageNode.updateFromJSON`: the base-class update touches no image field;
the serialized caption state is parsed and installed on the nested editor
only when it is non-empty. -/
def ImageNode.updateFromJSON (n : ImageNode) (s : SerializedImageNode) : ImageNode :=
  let editorState : List String := s.caption
  if ¬ (List.isEmpty editorState) then { n with caption := ⟨editorState⟩ } else n

/-- `ImageNode.importJSON`: destructures the serialized node, rebuilds via
`$createImageNode` and then applies `updateFromJSON`. -/
def ImageNode.importJSON (s : SerializedImageNode) : ImageNode :=
  (createImageNode
    { altText := s.altText
      height := s.height
      maxWidth := some s.maxWidth
      showCaption := some s.showCaption
      imgRounded := some s.imgRounded
      imgZoomable := some s.imgZoomable
      src := s.src
      width := s.width
      title := some s.title
      className := some s.className }).updateFromJSON s

/-- The `img` element built by `ImageNode.exportDOM`, one field per
`setAttribute` call, in source order. -/
structure ExportedImgElement where
  src : String
  alt : String
  width : String
  height : String
  title : String
  class_ : String
  dataRounded : String
  dataZoomable : String
deriving DecidableEq, Repr

/-- `ImageNode.exportDOM`: the eight attributes set on the created `img`
element. -/
def ImageNode.exportDOM (n : ImageNode) : ExportedImgElement where
  src := n.src
  alt := n.altText
  width := n.width.toStr
  height := n.height.toStr
  title := n.title.getD ""
  class_ := n.className.getD ""
  dataRounded := if n.imgRounded then "1" else "0"
  dataZoomable := if n.imgZoomable then "1" else "0"

/-- `getWritable` (framework base class, not under `src/`).  Modelled from the
spec: the mutators are "a thin, direct mapping from framework callbacks to
local component state" — the framework hands the mutator a writable version
of the node carrying the node's current state, which the mutator then
assigns to. -/
def ImageNode.getWritable (n : ImageNode) : ImageNode := n

/-- `ImageNode.setWidthAndHeight`: assigns `__width` and `__height` on the
writable node. -/
def ImageNode.setWidthAndHeight (n : ImageNode) (width height : Dim) : ImageNode :=
  let writable := n.getWritable
  { writable with width := width, height := height }

/-- `ImageNode.setShowCaption`: assigns `__showCaption` on the writable node. -/
def ImageNode.setShowCaption (n : ImageNode) (showCaption : Bool) : ImageNode :=
  let writable := n.getWritable
  { writable with showCaption := showCaption }

/-- `ImageNode.setImgRounded`: assigns `__imgRounded` on the writable node. -/
def ImageNode.setImgRounded (n : ImageNode) (imgRounded : Bool) : ImageNode :=
  let writable := n.getWritable
  { writable with imgRounded := imgRounded }

/-- `ImageNode.setImgZoomable`: assigns `__imgZoomable` on the writable node. -/
def ImageNode.setImgZoomable (n : ImageNode) (imgZoomable : Bool) : ImageNode :=
  let writable := n.getWritable
  { writable with imgZoomable := imgZoomable }

/-- The props of the `ImageComponent` element returned by
`ImageNode.decorate`, one field per JSX attribute. -/
structure ImageComponentProps where
  src : String
  altText : String
  width : Dim
  height : Dim
  maxWidth : Int
  nodeKey : Option Nat
  showCaption : Bool
  imgRounded : Bool
  imgZoomable : Bool
  caption : LexicalEditorM
  captionsEnabled : Bool
  title : Option String
  className : Option String
  resizable : Bool
deriving DecidableEq, Repr

/-- `ImageNode.decorate`: the props passed to `ImageComponent`, straight from
the node's fields, with `resizable={true}`. -/
def ImageNode.decorate (n : ImageNode) : ImageComponentProps where
  src := n.src
  altText := n.altText
  width := n.width
  height := n.height
  maxWidth := n.maxWidth
  nodeKey := n.key
  showCaption := n.showCaption
  imgRounded := n.imgRounded
  imgZoomable := n.imgZoomable
  caption := n.caption
  captionsEnabled := n.captionsEnabled
  title := n.title
  className := n.className
  resizable := true

/-! ## App.tsx: storage wiring, initial state, error handler -/

/-- The browser `localStorage`, as a map from key to stored string. -/
def Storage := String → Option String

/-- `localStorage.setItem(key, value)`. -/
def Storage.setItem (st : Storage) (key value : String) : Storage :=
  fun q => if q = key then some value else st q

/-- JavaScript truthiness of a string-or-null value, as tested by
`if (storageKey)` / `if (htmlStorageKey)` in `App.tsx`: `null` and the empty
string are falsy, every other string is truthy. -/
def jsTruthy : Option String → Bool
  | none => false
  | some s => s != ""

/-- The `onHtmlChange` callback installed by `App` on `OnChangePlugin`: when
`htmlStorageKey` is truthy, store the generated HTML under it. -/
def appOnHtmlChange (htmlStorageKey : Option String) (html : String)
    (st : Storage) : Storage :=
  if jsTruthy htmlStorageKey then st.setItem (htmlStorageKey.getD "") html else st

/-- The `onStateChange` callback installed by `App` on `OnChangePlugin`: when
`storageKey` is truthy, store the serialized editor state JSON under it. -/
def appOnStateChange (storageKey : Option String) (jsonString : String)
    (st : Storage) : Storage :=
  if jsTruthy storageKey then st.setItem (storageKey.getD "") jsonString else st

/-- The update listener registered by `OnChangePlugin` with `App`'s two
callbacks in place: both callbacks are provided, so on every update it first
delivers `$generateHtmlFromNodes(editor)` to `onHtmlChange` and then
`JSON.stringify(editorState.toJSON())` to `onStateChange`.  The two strings
are parameters: HTML generation and JSON serialization are framework
functions of the new editor state. -/
def onChangeListener (storageKey htmlStorageKey : Option String)
    (htmlString jsonString : String) (st : Storage) : Storage :=
  let st1 := appOnHtmlChange htmlStorageKey htmlString st
  appOnStateChange storageKey jsonString st1

/-- The module-level `dataFromStorage` normalization in `App.tsx`: the raw
`localStorage.getItem(storageKey)` result is replaced by `null` when it is
falsy (`null` or `''`) or equal to the literal string `'undefined'`
(the `typeof dataFromStorage == 'undefined'` disjunct is never true of a
string-or-null value).  The result is passed as `initialConfig.editorState`. -/
def dataFromStorage (raw : Option String) : Option String :=
  match raw with
  | none => none
  | some s => if s = "" ∨ s = "undefined" then none else some s

/-- Outcome of the editor `onError` handler. -/
inductive ErrorOutcome where
  | thrown : String → ErrorOutcome
deriving DecidableEq, Repr

/-- `initialConfig.onError`: logs the error with `console.error` and rethrows
it unchanged.  The result is the console log produced and the thrown error. -/
def appOnError (error : String) : List String × ErrorOutcome :=
  (["error: " ++ error], .thrown error)

/-! ## App.tsx: InsertLayoutDialog -/

/-- One entry of the `LAYOUTS` table. -/
structure LayoutEntry where
  label : String
  value : String
deriving DecidableEq, Repr

/-- The `LAYOUTS` table of `InsertLayoutDialog`. -/
def LAYOUTS : List LayoutEntry :=
  [⟨"2 colonnes (largeur égale)", "1fr 1fr"⟩,
   ⟨"2 colonnes (25% - 75%)", "1fr 3fr"⟩,
   ⟨"2 colonnes (largeur égale), 2 colonnes sur mobile", "1fr 1fr 0fr"⟩,
   ⟨"3 colonnes (largeur égale)", "1fr 1fr 1fr"⟩,
   ⟨"3 colonnes (25% - 50% - 25%)", "1fr 2fr 1fr"⟩,
   ⟨"4 colonnes (largeur égale)", "1fr 1fr 1fr 1fr"⟩,
   ⟨"2 colonnes, image avec texte", "2fr 3fr 0fr"⟩,
   ⟨"2 colonnes, image à droite avec texte", "3fr 2fr 0fr"⟩]

/-- The initial `layout` state of `InsertLayoutDialog`:
`useState(LAYOUTS[0].value)`. -/
def initialLayout : String :=
  (LAYOUTS.headD ⟨"", ""⟩).value

/-- Clicking the `i`-th `DropDownItem`: its `onClick` closure calls
`setLayout(value)` with that entry's `value`. -/
def selectLayoutItem (i : Nat) : String :=
  (LAYOUTS.getD i ⟨"", ""⟩).value

/-- What pressing the Insert button does, given the current `layout` state:
`dispatchCommand(INSERT_LAYOUT_COMMAND, layout)` on the active editor, then
`onClose()`.  Result: the list of dispatched command payloads and the number
of `onClose` calls. -/
def insertButtonClick (layout : String) : List String × Nat :=
  (["INSERT_LAYOUT_COMMAND " ++ layout], 1)

/-! ## ImageNode.tsx: DOM import -/

/-- The slice of an `HTMLImageElement` consulted by `$convertImageElement`
and `isGoogleDocCheckboxImg`: the `src`, `alt`, `width`, `height`,
`className` properties, the parent element's tag name (`none` when
`parentElement` is `null`), whether a previous sibling exists, and the
`aria-roledescription` attribute. -/
structure HTMLImageElementM where
  src : String
  alt : String
  width : Int
  height : Int
  className : String
  parentTagName : Option String
  hasPreviousSibling : Bool
  ariaRoledescription : Option String
deriving DecidableEq, Repr

/-- `isGoogleDocCheckboxImg`: the image's parent is an `LI`, it has no
previous sibling, and its `aria-roledescription` attribute is `'checkbox'`. -/
def isGoogleDocCheckboxImg (img : HTMLImageElementM) : Bool :=
  img.parentTagName == some "LI" &&
  !img.hasPreviousSibling &&
  img.ariaRoledescription == some "checkbox"

/-- Character-list prefix test, the executable core of `jsStartsWith`. -/
def listLeads : List Char → List Char → Bool
  | [], _ => true
  | _ :: _, [] => false
  | c :: cs, d :: ds => c == d && listLeads cs ds

/-- JavaScript `String.prototype.startsWith`: the search string occurs at the
beginning of the string. -/
def jsStartsWith (s pre : String) : Bool :=
  listLeads pre.data s.data

/-- `$convertImageElement`: `null` for `file:///` sources and Google-Docs
checkbox images, otherwise a conversion output whose node is
`$createImageNode({altText, height, src, width, className})` from the
element's properties. -/
def convertImageElement (img : HTMLImageElementM) : Option ImageNode :=
  if jsStartsWith img.src "file:///" || isGoogleDocCheckboxImg img then
    none
  else
    some (createImageNode
      { altText := img.alt
        height := some img.height
        src := img.src
        width := some img.width
        className := some img.className })

/-! ## ImageComponent.tsx -/

/-- JavaScript `String.prototype.toLowerCase`, character by character. -/
def jsToLowerCase (s : String) : String :=
  ⟨s.data.map Char.toLower⟩

/-- JavaScript `String.prototype.endsWith`: the search string occurs at the
end of the string. -/
def jsEndsWith (s sfx : String) : Bool :=
  listLeads sfx.data.reverse s.data.reverse

/-- `isSVG(src)`: the lower-cased source ends in `.svg`
(`src.toLowerCase().endsWith('.svg')`). -/
def isSVG (src : String) : Bool :=
  jsEndsWith (jsToLowerCase src) ".svg"

/-- `Math.round` on the exact rational value of the computation:
round-half-up, `⌊q + 1/2⌋`. -/
def jsRound (q : ℚ) : ℤ :=
  ⌊q + 1/2⌋

/-- The style object returned by `calculateDimensions` (`width`, `height`,
`maxWidth`): in the non-SVG branch `width`/`height` are the component props
(possibly `'inherit'`), in the SVG branch they are computed numbers. -/
structure ImgStyle where
  width : Dim
  height : Dim
  maxWidth : Int
deriving DecidableEq, Repr

/-- `dimensions?.width || 200` / `dimensions?.height || 200` of `LazyImage`:
the natural dimension falls back to `200` when the `dimensions` state is
still `null` or the stored value is `0`. -/
def naturalOr200 (v : Option Int) : Int :=
  match v with
  | none => 200
  | some w => if w = 0 then 200 else w

/-- `calculateDimensions` of `LazyImage`: non-SVG images keep the given
`width`, `height`, `maxWidth`; SVG images start from the natural dimensions
(default `200`), are scaled down to `maxWidth` when wider (the height scaled
proportionally with `Math.round`), then scaled down to the fixed
`maxHeight = 500` when taller (the width scaled proportionally with
`Math.round`). -/
def calculateDimensions (src : String) (dimensions : Option (Int × Int))
    (width height : Dim) (maxWidth : Int) : ImgStyle :=
  if ¬ isSVG src then
    ⟨width, height, maxWidth⟩
  else
    let naturalWidth := naturalOr200 (dimensions.map Prod.fst)
    let naturalHeight := naturalOr200 (dimensions.map Prod.snd)
    let step1 : Int × Int :=
      if naturalWidth > maxWidth then
        (maxWidth, jsRound ((naturalHeight : ℚ) * ((maxWidth : ℚ) / (naturalWidth : ℚ))))
      else
        (naturalWidth, naturalHeight)
    let step2 : Int × Int :=
      if step1.2 > 500 then
        (jsRound ((step1.1 : ℚ) * ((500 : ℚ) / (step1.2 : ℚ))), 500)
      else
        step1
    ⟨.num step2.1, .num step2.2, maxWidth⟩

/-- The props `ImageComponent` forwards to `LazyImage` in its normal (non
load-error) branch, restricted to the data-carrying ones:
`otherClassName={className ?? ''}`, `title={title ?? ''}`, and `src`,
`altText`, `width`, `height`, `maxWidth`, `imgRounded` straight through. -/
structure LazyImageProps where
  otherClassName : String
  src : String
  altText : String
  title : String
  width : Dim
  height : Dim
  maxWidth : Int
  imgRounded : Bool
deriving DecidableEq, Repr

/-- The rendering chosen by `ImageComponent` inside its `<div>`: either the
`BrokenImage` fallback or the `LazyImage` with forwarded props. -/
inductive ImageBody where
  | brokenImage : ImageBody
  | lazyImage : LazyImageProps → ImageBody
deriving DecidableEq, Repr

/-- The `isLoadError ? <BrokenImage /> : <LazyImage ... />` branch of
`ImageComponent`, with the prop forwarding of the `LazyImage` case
(`otherClassName={className ?? ''}`, `title={title ?? ''}`). -/
def imageComponentBody (isLoadError : Bool) (p : ImageComponentProps) : ImageBody :=
  if isLoadError then
    .brokenImage
  else
    .lazyImage
      { otherClassName := p.className.getD ""
        src := p.src
        altText := p.altText
        title := p.title.getD ""
        width := p.width
        height := p.height
        maxWidth := p.maxWidth
        imgRounded := p.imgRounded }

/-! ## Claims -/

/-- C2: for every `ImageNode`, `decorate()` returns an `ImageComponent`
element whose props `src`, `altText`, `width`, `height`, `maxWidth`,
`showCaption`, `imgRounded`, `imgZoomable`, `caption`, `captionsEnabled`,
`title` and `className` equal the node's corresponding fields, with
`resizable` always `true`. -/
theorem decorate_mirrors_node_state (n : ImageNode) :
    n.decorate.src = n.src ∧
    n.decorate.altText = n.altText ∧
    n.decorate.width = n.width ∧
    n.decorate.height = n.height ∧
    n.decorate.maxWidth = n.maxWidth ∧
    n.decorate.showCaption = n.showCaption ∧
    n.decorate.imgRounded = n.imgRounded ∧
    n.decorate.imgZoomable = n.imgZoomable ∧
    n.decorate.caption = n.caption ∧
    n.decorate.captionsEnabled = n.captionsEnabled ∧
    n.decorate.title = n.title ∧
    n.decorate.className = n.className ∧
    n.decorate.resizable = true :=
  ⟨rfl, rfl, rfl, rfl, rfl, rfl, rfl, rfl, rfl, rfl, rfl, rfl, rfl⟩

/-- C4: the initial editor state passed to the editor config is the string
read from `localStorage` under the `storageKey` query parameter, except that
an absent, empty, or literal `'undefined'` value is normalized to `null`. -/
theorem initial_editor_state_from_storage (raw : Option String) :
    (raw = none ∨ raw = some "" ∨ raw = some "undefined" →
      dataFromStorage raw = none) ∧
    (∀ s, raw = some s → s ≠ "" → s ≠ "undefined" →
      dataFromStorage raw = some s) := by
  constructor
  · rintro (rfl | rfl | rfl) <;> simp [dataFromStorage]
  · rintro s rfl hs hu
    simp [dataFromStorage, hs, hu]

/-- Witness for C4 at two concrete stored values. -/
theorem initial_editor_state_from_storage_witness :
    dataFromStorage (some "undefined") = none ∧
    dataFromStorage (some "\x7broot\x7d") = some "\x7broot\x7d" :=
  ⟨(initial_editor_state_from_storage (some "undefined")).1 (Or.inr (Or.inr rfl)),
   (initial_editor_state_from_storage (some "\x7broot\x7d")).2 "\x7broot\x7d" rfl
     (by decide) (by decide)⟩

/-- C5: each `ImageNode` mutator changes only its named fields on the
writable node: `setWidthAndHeight` sets exactly `__width` and `__height`,
`setShowCaption` sets exactly `__showCaption`, `setImgRounded` sets exactly
`__imgRounded`, `setImgZoomable` sets exactly `__imgZoomable`, and every
other field (in particular `__src`, `__altText`, `__maxWidth`, `__caption`,
`__captionsEnabled`, `__title`, `__className`) is preserved by all four. -/
theorem image_node_setters_frame (n : ImageNode) (w h : Dim) (b r z : Bool) :
    n.setWidthAndHeight w h = { n with width := w, height := h } ∧
    n.setShowCaption b = { n with showCaption := b } ∧
    n.setImgRounded r = { n with imgRounded := r } ∧
    n.setImgZoomable z = { n with imgZoomable := z } :=
  ⟨rfl, rfl, rfl, rfl⟩

/-- C7: for every `ImageNode`, `exportDOM()` returns an `img` element whose
`src`, `alt`, `width`, `height` attributes equal `__src`, `__altText`,
`__width.toString()` and `__height.toString()`, whose `title` and `class`
attributes equal `__title` and `__className` or the empty string when unset,
and whose `data-rounded` and `data-zoomable` attributes are `'1'` when the
corresponding flag is true and `'0'` otherwise. -/
theorem export_dom_attributes (n : ImageNode) :
    n.exportDOM.src = n.src ∧
    n.exportDOM.alt = n.altText ∧
    n.exportDOM.width = n.width.toStr ∧
    n.exportDOM.height = n.height.toStr ∧
    n.exportDOM.title = n.title.getD "" ∧
    n.exportDOM.class_ = n.className.getD "" ∧
    n.exportDOM.dataRounded = (if n.imgRounded then "1" else "0") ∧
    n.exportDOM.dataZoomable = (if n.imgZoomable then "1" else "0") :=
  ⟨rfl, rfl, rfl, rfl, rfl, rfl, rfl, rfl⟩

/-- C6: in `InsertLayoutDialog` the selected layout starts as the first
`LAYOUTS` entry's value `'1fr 1fr'`; clicking the `i`-th dropdown item sets
the selection to that item's value; and pressing Insert dispatches
`INSERT_LAYOUT_COMMAND` with exactly the currently selected layout value and
calls `onClose` exactly once. -/
theorem insert_layout_dialog_behavior (i : Nat) (hi : i < LAYOUTS.length) :
    initialLayout = "1fr 1fr" ∧
    selectLayoutItem i = (LAYOUTS.get ⟨i, hi⟩).value ∧
    insertButtonClick (selectLayoutItem i) =
      (["INSERT_LAYOUT_COMMAND " ++ (LAYOUTS.get ⟨i, hi⟩).value], 1) ∧
    insertButtonClick initialLayout = (["INSERT_LAYOUT_COMMAND 1fr 1fr"], 1) := by
  have hsel : selectLayoutItem i = (LAYOUTS.get ⟨i, hi⟩).value := by
    have h8 : i < 8 := by simpa [LAYOUTS] using hi
    interval_cases i <;> rfl
  refine ⟨rfl, hsel, ?_, rfl⟩
  rw [hsel]
  rfl

/-- Witness for C6 at the third dropdown item. -/
theorem insert_layout_dialog_behavior_witness :
    initialLayout = "1fr 1fr" ∧
    selectLayoutItem 2 = (LAYOUTS.get ⟨2, by decide⟩).value ∧
    insertButtonClick (selectLayoutItem 2) =
      (["INSERT_LAYOUT_COMMAND " ++ (LAYOUTS.get ⟨2, by decide⟩).value], 1) ∧
    insertButtonClick initialLayout = (["INSERT_LAYOUT_COMMAND 1fr 1fr"], 1) :=
  insert_layout_dialog_behavior 2 (by decide)

/-- C1 counterexample: with a `storageKey` query parameter present but equal
to the empty string, the update listener stores nothing (the `if (storageKey)`
truthiness test fails), so localStorage under that key does not hold the
serialized state the claim promises. -/
theorem onchange_empty_key_counterexample :
    onChangeListener (some "") none "html" "json" (fun _ => none) "" ≠ some "json" := by
  decide

/-- C1 (amended): after the registered update listener runs, a nonempty
`storageKey` parameter's key holds `JSON.stringify(editorState.toJSON())`; a
nonempty `htmlStorageKey` parameter's key holds the generated HTML provided
it differs from `storageKey` (the state JSON is written after the HTML and
wins when the two keys coincide); every key not written this way — in
particular every key, when a parameter is absent or empty — is unchanged. -/
theorem onchange_persists_state_and_html (storageKey htmlStorageKey : Option String)
    (htmlString jsonString : String) (st : Storage) :
    (∀ s, storageKey = some s → s ≠ "" →
      onChangeListener storageKey htmlStorageKey htmlString jsonString st s =
        some jsonString) ∧
    (∀ k, htmlStorageKey = some k → k ≠ "" → storageKey ≠ some k →
      onChangeListener storageKey htmlStorageKey htmlString jsonString st k =
        some htmlString) ∧
    (∀ q, (∀ s, storageKey = some s → s ≠ "" → q ≠ s) →
      (∀ k, htmlStorageKey = some k → k ≠ "" → q ≠ k) →
      onChangeListener storageKey htmlStorageKey htmlString jsonString st q =
        st q) := by
  refine ⟨?_, ?_, ?_⟩
  · rintro s rfl hs
    simp [onChangeListener, appOnStateChange, jsTruthy, hs, Storage.setItem]
  · rintro k rfl hk hne
    have hfalse : ∀ s, storageKey = some s → s ≠ "" → k ≠ s := by
      rintro s rfl hs hks
      exact hne (by rw [hks])
    simp only [onChangeListener, appOnStateChange, appOnHtmlChange, jsTruthy]
    cases storageKey with
    | none =>
        simp [jsTruthy, hk, Storage.setItem]
    | some s =>
        by_cases hs : s = ""
        · simp [jsTruthy, hs, hk, Storage.setItem]
        · have hks : k ≠ s := hfalse s rfl hs
          simp [jsTruthy, hs, hk, Storage.setItem, hks]
  · rintro q hq hqk
    simp only [onChangeListener, appOnStateChange, appOnHtmlChange]
    cases storageKey with
    | none =>
        cases htmlStorageKey with
        | none => simp [jsTruthy]
        | some k =>
            by_cases hk : k = ""
            · simp [jsTruthy, hk]
            · have := hqk k rfl hk
              simp [jsTruthy, hk, Storage.setItem, this]
    | some s =>
        by_cases hs : s = ""
        all_goals cases htmlStorageKey with
        | none => simp [jsTruthy, hs, Storage.setItem, hq s rfl]
        | some k =>
            by_cases hk : k = ""
            all_goals
              simp [jsTruthy, hs, hk, Storage.setItem, hq s rfl, hqk k rfl]

/-- Witness for C1 at concrete keys: the state key holds the JSON, the html
key holds the HTML, and an unrelated key is untouched. -/
theorem onchange_persists_state_and_html_witness :
    onChangeListener (some "state") (some "html") "H" "J" (fun _ => none) "state" =
      some "J" ∧
    onChangeListener (some "state") (some "html") "H" "J" (fun _ => none) "html" =
      some "H" ∧
    onChangeListener (some "state") (some "html") "H" "J" (fun _ => none) "other" =
      none :=
  ⟨(onchange_persists_state_and_html (some "state") (some "html") "H" "J"
      (fun _ => none)).1 "state" rfl (by decide),
   (onchange_persists_state_and_html (some "state") (some "html") "H" "J"
      (fun _ => none)).2.1 "html" rfl (by decide) (by decide),
   (onchange_persists_state_and_html (some "state") (some "html") "H" "J"
      (fun _ => none)).2.2 "other"
      (by rintro s hs _; cases hs; decide)
      (by rintro k hk _; cases hk; decide)⟩

/-- C3 counterexample: `ImageComponent` does substitute a fallback rendering
for a failed operation — once the image fails to load (`isLoadError` set by
the `onError` prop of `LazyImage`), it renders `BrokenImage` instead of the
normal `LazyImage`. -/
theorem broken_image_fallback_counterexample :
    imageComponentBody true
      { src := "https://example.com/a.png", altText := "a", width := .inherit,
        height := .inherit, maxWidth := 500, nodeKey := none,
        showCaption := false, imgRounded := false, imgZoomable := false,
        caption := ⟨[]⟩, captionsEnabled := true, title := none,
        className := none, resizable := true } = .brokenImage ∧
    ImageBody.brokenImage ≠ imageComponentBody false
      { src := "https://example.com/a.png", altText := "a", width := .inherit,
        height := .inherit, maxWidth := 500, nodeKey := none,
        showCaption := false, imgRounded := false, imgZoomable := false,
        caption := ⟨[]⟩, captionsEnabled := true, title := none,
        className := none, resizable := true } := by
  exact ⟨rfl, by decide⟩

/-- C3 (amended): every error passed to the editor's `onError` handler is
rethrown unchanged; however, the claim that no component substitutes a
fallback rendering fails — `ImageComponent` renders the `BrokenImage`
fallback in place of the image whenever the image load has errored, and the
normal `LazyImage` rendering otherwise. -/
theorem onerror_rethrows_and_broken_image_fallback (e : String)
    (p : ImageComponentProps) :
    (appOnError e).2 = .thrown e ∧
    imageComponentBody false p =
      .lazyImage
        { otherClassName := p.className.getD "", src := p.src,
          altText := p.altText, title := p.title.getD "", width := p.width,
          height := p.height, maxWidth := p.maxWidth,
          imgRounded := p.imgRounded } ∧
    imageComponentBody true p = .brokenImage :=
  ⟨rfl, rfl, rfl⟩

/-- C8: `importJSON ∘ exportJSON` preserves `src`, `altText`, `maxWidth`,
`showCaption`, `imgRounded` and `imgZoomable`; `title` and `className` come
back with `undefined` mapped to the empty string; a nonzero numeric width or
height is preserved, while both `'inherit'` and the number `0` come back as
`'inherit'` (exportJSON writes `'inherit'` as `0` and the constructor maps
`0` back to `'inherit'`). -/
theorem import_export_json_roundtrip (n : ImageNode) :
    (ImageNode.importJSON n.exportJSON).src = n.src ∧
    (ImageNode.importJSON n.exportJSON).altText = n.altText ∧
    (ImageNode.importJSON n.exportJSON).maxWidth = n.maxWidth ∧
    (ImageNode.importJSON n.exportJSON).showCaption = n.showCaption ∧
    (ImageNode.importJSON n.exportJSON).imgRounded = n.imgRounded ∧
    (ImageNode.importJSON n.exportJSON).imgZoomable = n.imgZoomable ∧
    (ImageNode.importJSON n.exportJSON).title = some (n.title.getD "") ∧
    (ImageNode.importJSON n.exportJSON).className = some (n.className.getD "") ∧
    (ImageNode.importJSON n.exportJSON).width =
      (match n.width with
        | .inherit => .inherit
        | .num v => if v = 0 then .inherit else .num v) ∧
    (ImageNode.importJSON n.exportJSON).height =
      (match n.height with
        | .inherit => .inherit
        | .num v => if v = 0 then .inherit else .num v) := by
  simp only [ImageNode.importJSON, ImageNode.exportJSON, createImageNode,
    applyNodeReplacement, ImageNode.new, ImageNode.updateFromJSON]
  split
  all_goals
    cases hw : n.width <;> cases hh : n.height <;>
      simp [dimOrInherit, Dim.truthy]

/-- C9 counterexample: for an ordinary `img` element whose `width` property
is `0` (no width attribute), the conversion output's node does not carry the
element's width — `$createImageNode` routes it through `width || 'inherit'`,
so the node's `__width` is `'inherit'`, not `0`. -/
theorem convert_image_zero_width_counterexample :
    (convertImageElement
      { src := "https://example.com/a.png", alt := "a", width := 0, height := 0,
        className := "pic", parentTagName := none, hasPreviousSibling := false,
        ariaRoledescription := none }).map ImageNode.width = some Dim.inherit ∧
    some Dim.inherit ≠ some (Dim.num 0) :=
  ⟨rfl, by decide⟩

/-- C9 (amended): `$convertImageElement` returns `null` exactly when the img
element's `src` starts with `file:///` or the element is a Google-Docs
checkbox image (parent is an `LI`, no previous sibling,
`aria-roledescription` is `'checkbox'`); for every other img element it
returns a conversion output whose node carries the element's `alt`, `src`
and `className`, and carries `width` and `height` as given when nonzero and
as `'inherit'` when zero. -/
theorem convert_image_element_spec (img : HTMLImageElementM) :
    (convertImageElement img = none ↔
      (jsStartsWith img.src "file:///" = true ∨ isGoogleDocCheckboxImg img = true)) ∧
    (∀ n, convertImageElement img = some n →
      n.src = img.src ∧ n.altText = img.alt ∧ n.className = some img.className ∧
      n.width = (if img.width = 0 then Dim.inherit else Dim.num img.width) ∧
      n.height = (if img.height = 0 then Dim.inherit else Dim.num img.height)) := by
  constructor
  · simp only [convertImageElement]
    split <;> simp_all
  · intro n hn
    simp only [convertImageElement] at hn
    split at hn
    · exact absurd hn (by simp)
    · have hne : n = createImageNode
        { altText := img.alt, height := some img.height, src := img.src,
          width := some img.width, className := some img.className } :=
        (Option.some.inj hn).symm
      subst hne
      refine ⟨rfl, rfl, rfl, ?_, ?_⟩ <;>
        simp [createImageNode, applyNodeReplacement, ImageNode.new,
          dimOrInherit, Dim.truthy]

/-- Witness for C9 at a concrete ordinary element with nonzero dimensions. -/
theorem convert_image_element_spec_witness :
    (createImageNode
        { altText := "b", height := some 20, src := "https://example.com/b.png",
          width := some 10, className := some "pic" }).src =
      "https://example.com/b.png" ∧
    (createImageNode
        { altText := "b", height := some 20, src := "https://example.com/b.png",
          width := some 10, className := some "pic" }).altText = "b" ∧
    (createImageNode
        { altText := "b", height := some 20, src := "https://example.com/b.png",
          width := some 10, className := some "pic" }).className = some "pic" ∧
    (createImageNode
        { altText := "b", height := some 20, src := "https://example.com/b.png",
          width := some 10, className := some "pic" }).width =
      (if (10 : Int) = 0 then Dim.inherit else Dim.num 10) ∧
    (createImageNode
        { altText := "b", height := some 20, src := "https://example.com/b.png",
          width := some 10, className := some "pic" }).height =
      (if (20 : Int) = 0 then Dim.inherit else Dim.num 20) :=
  (convert_image_element_spec
    { src := "https://example.com/b.png", alt := "b", width := 10, height := 20,
      className := "pic", parentTagName := none, hasPreviousSibling := false,
      ariaRoledescription := none }).2
    (createImageNode
      { altText := "b", height := some 20, src := "https://example.com/b.png",
        width := some 10, className := some "pic" })
    rfl

/-- Helper: `jsRound` never exceeds an integer bound dominating its
argument. -/
theorem jsRound_le_intCast {x : ℚ} {m : Int} (h : x ≤ (m : ℚ)) : jsRound x ≤ m := by
  have hf : ⌊x + 1/2⌋ < m + 1 := Int.floor_lt.mpr (by push_cast; linarith)
  simpa [jsRound] using Int.lt_add_one_iff.mp hf

/-- Helper: a nonnegative quantity scaled by a ratio at most one does not
increase. -/
theorem mulScaleLe {a c d : ℚ} (ha : 0 ≤ a) (hd : 0 < d) (hcd : c ≤ d) :
    a * (c / d) ≤ a :=
  mul_le_of_le_one_right ha ((div_le_one hd).mpr hcd)

/-- Helper: the natural-dimension fallback is at least `1` whenever the
stored value is nonnegative. -/
theorem naturalOr200_pos (o : Option Int) (h : ∀ v, o = some v → 0 ≤ v) :
    1 ≤ naturalOr200 o := by
  cases o with
  | none => simp [naturalOr200]
  | some v =>
      have hv := h v rfl
      simp only [naturalOr200]
      split <;> omega

/-- C10: for every SVG image (nonnegative natural dimensions, defaulting to
`200` when unknown), `calculateDimensions` returns a numeric width and
height with the height at most `500`, the width at most `maxWidth` whenever
`maxWidth` is at least `1`, and neither dimension scaled up beyond its
natural value (scaling only shrinks, via `Math.round`); for every non-SVG
image it returns the given `width`, `height` and `maxWidth` unchanged. -/
theorem calculate_dimensions_spec (src : String) (dimensions : Option (Int × Int))
    (width height : Dim) (maxWidth : Int)
    (hdim : ∀ w h, dimensions = some (w, h) → 0 ≤ w ∧ 0 ≤ h) :
    (isSVG src = true →
      ∃ fw fh : Int,
        calculateDimensions src dimensions width height maxWidth =
          ⟨Dim.num fw, Dim.num fh, maxWidth⟩ ∧
        fh ≤ 500 ∧
        (1 ≤ maxWidth → fw ≤ maxWidth) ∧
        fw ≤ naturalOr200 (dimensions.map Prod.fst) ∧
        fh ≤ naturalOr200 (dimensions.map Prod.snd)) ∧
    (isSVG src = false →
      calculateDimensions src dimensions width height maxWidth =
        ⟨width, height, maxWidth⟩) := by
  constructor
  · intro hsvg
    have hfst : ∀ v, dimensions.map Prod.fst = some v → 0 ≤ v := by
      intro v hv
      cases dimensions with
      | none => simp at hv
      | some p =>
          obtain ⟨a, b⟩ := p
          simp at hv
          have := (hdim a b rfl).1
          omega
    have hsnd : ∀ v, dimensions.map Prod.snd = some v → 0 ≤ v := by
      intro v hv
      cases dimensions with
      | none => simp at hv
      | some p =>
          obtain ⟨a, b⟩ := p
          simp at hv
          have := (hdim a b rfl).2
          omega
    have hnw1 : 1 ≤ naturalOr200 (dimensions.map Prod.fst) := naturalOr200_pos _ hfst
    have hnh1 : 1 ≤ naturalOr200 (dimensions.map Prod.snd) := naturalOr200_pos _ hsnd
    simp only [calculateDimensions, hsvg, not_true, if_false]
    set nw := naturalOr200 (dimensions.map Prod.fst) with hnwdef
    set nh := naturalOr200 (dimensions.map Prod.snd) with hnhdef
    have hnwq : (0 : ℚ) < (nw : ℚ) := by exact_mod_cast (by omega : (0 : Int) < nw)
    have hnhq : (0 : ℚ) < (nh : ℚ) := by exact_mod_cast (by omega : (0 : Int) < nh)
    have hnh0q : (0 : ℚ) ≤ (nh : ℚ) := le_of_lt hnhq
    have hnw0q : (0 : ℚ) ≤ (nw : ℚ) := le_of_lt hnwq
    by_cases h1 : nw > maxWidth
    · rw [if_pos h1]
      have hmwle : (maxWidth : ℚ) ≤ (nw : ℚ) := by exact_mod_cast le_of_lt h1
      have hfh1_le : jsRound ((nh : ℚ) * ((maxWidth : ℚ) / (nw : ℚ))) ≤ nh :=
        jsRound_le_intCast (mulScaleLe hnh0q hnwq hmwle)
      by_cases h2 : (maxWidth, jsRound ((nh : ℚ) * ((maxWidth : ℚ) / (nw : ℚ)))).2 > 500
      · rw [if_pos h2]
        dsimp only at h2 ⊢
        have hmwpos : 0 < maxWidth := by
          by_contra hle
          have hx : (nh : ℚ) * ((maxWidth : ℚ) / (nw : ℚ)) ≤ ((0 : Int) : ℚ) := by
            push_cast
            refine mul_nonpos_iff.mpr (Or.inl ⟨hnh0q, ?_⟩)
            exact div_nonpos_iff.mpr
              (Or.inr ⟨by exact_mod_cast (by omega : maxWidth ≤ (0 : Int)), hnw0q⟩)
          have := jsRound_le_intCast hx
          omega
        set fh1 := jsRound ((nh : ℚ) * ((maxWidth : ℚ) / (nw : ℚ))) with hfh1def
        have hfh1q : (0 : ℚ) < (fh1 : ℚ) := by exact_mod_cast (by omega : (0 : Int) < fh1)
        have h500 : ((500 : Int) : ℚ) ≤ (fh1 : ℚ) := by
          exact_mod_cast (by omega : (500 : Int) ≤ fh1)
        have hfw_le_mw : jsRound ((maxWidth : ℚ) * (500 / (fh1 : ℚ))) ≤ maxWidth :=
          jsRound_le_intCast
            (mulScaleLe (by exact_mod_cast le_of_lt hmwpos) hfh1q (by exact_mod_cast h500))
        refine ⟨_, _, rfl, le_refl _, fun _ => hfw_le_mw, by omega, by omega⟩
      · rw [if_neg h2]
        dsimp only at h2 ⊢
        refine ⟨_, _, rfl, by omega, fun _ => le_refl _, by omega, hfh1_le⟩
    · rw [if_neg h1]
      by_cases h2 : (nw, nh).2 > 500
      · rw [if_pos h2]
        dsimp only at h2 ⊢
        have h500 : ((500 : Int) : ℚ) ≤ (nh : ℚ) := by
          exact_mod_cast (by omega : (500 : Int) ≤ nh)
        have hfw_le_nw : jsRound ((nw : ℚ) * (500 / (nh : ℚ))) ≤ nw :=
          jsRound_le_intCast (mulScaleLe hnw0q hnhq (by exact_mod_cast h500))
        refine ⟨_, _, rfl, le_refl _, fun _ => by omega, hfw_le_nw, by omega⟩
      · rw [if_neg h2]
        dsimp only at h2 ⊢
        refine ⟨_, _, rfl, by omega, fun _ => by omega, le_refl _, le_refl _⟩
  · intro h
    simp [calculateDimensions, h]

/-- Witness for C10 at a concrete SVG source with natural dimensions
`800 × 600` and at a concrete non-SVG source. -/
theorem calculate_dimensions_spec_witness :
    (∃ fw fh : Int,
        calculateDimensions "https://example.com/pic.svg" (some (800, 600))
            Dim.inherit Dim.inherit 500 =
          ⟨Dim.num fw, Dim.num fh, 500⟩ ∧
        fh ≤ 500 ∧
        ((1 : Int) ≤ 500 → fw ≤ 500) ∧
        fw ≤ naturalOr200 ((some ((800 : Int), (600 : Int))).map Prod.fst) ∧
        fh ≤ naturalOr200 ((some ((800 : Int), (600 : Int))).map Prod.snd)) ∧
    calculateDimensions "https://example.com/pic.png" (some (800, 600))
        Dim.inherit (Dim.num 7) 300 =
      ⟨Dim.inherit, Dim.num 7, 300⟩ :=
  ⟨(calculate_dimensions_spec "https://example.com/pic.svg" (some (800, 600))
      Dim.inherit Dim.inherit 500
      (by intro w h hw; simp at hw; omega)).1 (by decide),
   (calculate_dimensions_spec "https://example.com/pic.png" (some (800, 600))
      Dim.inherit (Dim.num 7) 300
      (by intro w h hw; simp at hw; omega)).2 (by decide)⟩
